import Mathlib

/-!
Shallow embedding of the workload-specific transaction-construction and
outcome-interpretation layer of the bulk-mint tool
(src/bulk-mint/src/its_aptos_thing.rs), together with the parts of its SDK
dependencies (addresses, identifiers, signing, event lookup) that the code
exercises.  Machine integers are modelled as Nat with explicit `% 256`
normalisation where bytes matter; fallible operations return Option/Except;
the interior mutability of the SDK signing identity (an atomic sequence
number bumped by every signing call) is modelled by explicit state passing:
each signing operation returns the signed transaction together with the
updated account.
-/

/-- Little-endian byte expansion of a natural number, fixed width. -/
def natToBytesLE : Nat → Nat → List Nat
  | _, 0 => []
  | v, k + 1 => v % 256 :: natToBytesLE (v / 256) k

/-- A 32-byte on-chain account address, modelled by its numeric value.
Models move_core_types::account_address::AccountAddress. -/
structure AccountAddress where
  val : Nat
deriving DecidableEq

/-- The 32 bytes of an address, big-endian (as stored on chain). -/
def AccountAddress.toBytes (a : AccountAddress) : List Nat :=
  (natToBytesLE a.val 32).reverse

/-- The sixteen hexadecimal digit characters. -/
def hexChars : List Char := "0123456789abcdef".data

/-- Hexadecimal digit character for a value below 16. -/
def hexDigit (n : Nat) : Char := hexChars.getD (n % 16) '0'

/-- Hex character pair for one byte. -/
def byteHex (b : Nat) : List Char := [hexDigit (b / 16), hexDigit (b % 16)]

/-- Models AccountAddress::to_standard_string of the SDK: 0x followed by the
hex digits of the 32 bytes. -/
def AccountAddress.toStandardString (a : AccountAddress) : String :=
  "0x" ++ String.mk ((a.toBytes.map byteHex).flatten)

/-- Models the Display rendering of an address used by the format! call in
the mint success_output (hex digits of the 32 bytes, no 0x). -/
def AccountAddress.toDisplayString (a : AccountAddress) : String :=
  String.mk ((a.toBytes.map byteHex).flatten)

/-- BCS encoding of an address: its raw 32 bytes. -/
def bcsAddr (a : AccountAddress) : List Nat := a.toBytes

/-- ULEB128 encoding of a length. -/
def uleb128 (n : Nat) : List Nat :=
  if h : n < 128 then [n] else (n % 128 + 128) :: uleb128 (n / 128)
termination_by n
decreasing_by exact Nat.div_lt_self (by omega) (by omega)

/-- BCS encoding of a bool. -/
def bcsBool (b : Bool) : List Nat := [if b then 1 else 0]

/-- BCS encoding of a u64, little-endian over 8 bytes. -/
def bcsU64 (n : Nat) : List Nat := natToBytesLE (n % 2 ^ 64) 8

/-- BCS encoding of a string: ULEB128 byte length, then the bytes.  The
strings the tool encodes are ASCII, so code points are the bytes. -/
def bcsString (s : String) : List Nat :=
  uleb128 s.data.length ++ s.data.map (fun c => c.toNat)

/-- BCS encoding of an Option u64. -/
def bcsOptionU64 : Option Nat → List Nat
  | none => [0]
  | some n => 1 :: bcsU64 n

/-- BCS encoding of a vector of strings. -/
def bcsVecString (l : List String) : List Nat :=
  uleb128 l.length ++ (l.map bcsString).flatten

/-- BCS encoding of a vector of u64. -/
def bcsVecU64 (l : List Nat) : List Nat :=
  uleb128 l.length ++ (l.map bcsU64).flatten

/-- Modelled from the spec: the Move identifier validity check performed by
IdentStr::new of the SDK (missing from src/) — ASCII, no leading digit,
limited character set: a leading ASCII letter, or an underscore when at
least one more character follows, then letters, digits and underscores. -/
def isIdentTailChar (c : Char) : Bool :=
  c.isLower || c.isUpper || c.isDigit || c = '_'

/-- Modelled from the spec: leading-character rule of a Move identifier. -/
def isValidIdentifier (s : String) : Bool :=
  match s.data with
  | [] => false
  | c :: rest =>
    ((c.isLower || c.isUpper) || (c = '_' && !rest.isEmpty))
      && rest.all isIdentTailChar

/-- Models IdentStr::new: some identifier when valid, none models the
InvalidIdentifier failure (surfaced by unwrap as a construction-time panic). -/
def identNew (s : String) : Option String :=
  if isValidIdentifier s then some s else none

/-- Models move_core_types::language_storage::ModuleId. -/
structure ModuleId where
  address : AccountAddress
  name : String
deriving DecidableEq

/-- Display rendering of a module id, address::name, used to build the
expected event type tag. -/
def ModuleId.toDisplayString (m : ModuleId) : String :=
  m.address.toStandardString ++ "::" ++ m.name

/-- get_module_id of its_aptos_thing.rs: ModuleId::new over
IdentStr::new(contract_module_name).unwrap(); none models the unwrap panic
on an invalid identifier. -/
def get_module_id (contract_address : AccountAddress) (contract_module_name : String) :
    Option ModuleId :=
  (identNew contract_module_name).map (fun n => ⟨contract_address, n⟩)

/-- An entry-function payload: module, function name, type arguments and the
ordered BCS-encoded argument blobs. -/
structure EntryFunction where
  module : ModuleId
  function : String
  tyArgs : List String
  args : List (List Nat)
deriving DecidableEq

/-- Transaction-construction parameters contributed by the
TransactionFactory (chain id; gas parameters are irrelevant to the claims
but kept as data the raw transaction carries). -/
structure TransactionFactory where
  chainId : Nat
  maxGasAmount : Nat
  gasUnitPrice : Nat
deriving DecidableEq

/-- The raw transaction assembled by sign_with_transaction_builder. -/
structure RawTransaction where
  sender : AccountAddress
  sequenceNumber : Nat
  payload : EntryFunction
  chainId : Nat
deriving DecidableEq

/-- A signed transaction: the raw transaction plus the addresses of the
secondary signers (empty for a single-agent transaction).  Signatures are
determined by the signing keys and the raw transaction and carry no extra
information for the claims, so they are not separately modelled. -/
structure SignedTransaction where
  raw : RawTransaction
  secondarySigners : List AccountAddress
deriving DecidableEq

/-- Primary signer (sender) of a signed transaction. -/
def SignedTransaction.sender (st : SignedTransaction) : AccountAddress :=
  st.raw.sender

/-- A signing identity.  The SDK LocalAccount holds its key and an atomic
sequence number; the key only produces signatures, so the model keeps the
address and the mutable sequence number. -/
structure LocalAccount where
  address : AccountAddress
  sequenceNumber : Nat
deriving DecidableEq

/-- Models LocalAccount::sign_with_transaction_builder of the SDK: builds a
raw transaction from the account address and its current sequence number,
and increments the stored sequence number (fetch_add on the atomic),
returned here as the updated account. -/
def sign_with_transaction_builder (account : LocalAccount)
    (txn_factory : TransactionFactory) (payload : EntryFunction) :
    SignedTransaction × LocalAccount :=
  (⟨⟨account.address, account.sequenceNumber, payload, txn_factory.chainId⟩, []⟩,
    ⟨account.address, account.sequenceNumber + 1⟩)

/-- Models LocalAccount::sign_multi_agent_with_transaction_builder: as the
single-agent form, with the secondary signers recorded; only the primary
account's sequence number is consumed and incremented. -/
def sign_multi_agent_with_transaction_builder (account : LocalAccount)
    (secondary : List LocalAccount) (txn_factory : TransactionFactory)
    (payload : EntryFunction) : SignedTransaction × LocalAccount :=
  (⟨⟨account.address, account.sequenceNumber, payload, txn_factory.chainId⟩,
      secondary.map (fun a => a.address)⟩,
    ⟨account.address, account.sequenceNumber + 1⟩)

/-- An emitted contract event: its type tag (rendered as a string, which is
what the event search compares against) and its BCS payload bytes. -/
structure ContractEvent where
  typeTag : String
  data : List Nat
deriving DecidableEq

/-- Modelled from the spec: the failure modes of the Outcome Extractor
(event_lookup of the bulk-submit crate, missing from src/): no matching
event, more than one matching event, or an undecodable payload. -/
inductive ExtractError where
  | eventNotFound
  | ambiguousEvent
  | decodeError
deriving DecidableEq

/-- Stringified extraction error, as embedded into result lines. -/
def ExtractError.toString : ExtractError → String
  | .eventNotFound => "EventNotFound"
  | .ambiguousEvent => "AmbiguousEvent"
  | .decodeError => "DecodeError"

/-- Modelled from the spec: search_single_event_data of the event_lookup
module (missing from src/) — scan the events for exactly one record of the
expected type tag and decode its payload; fail on zero matches, on more
than one, or on a payload the decoder rejects. -/
def search_single_event_data {α : Type} (decode : List Nat → Option α)
    (events : List ContractEvent) (event_type : String) : Except ExtractError α :=
  match events.filter (fun e => e.typeTag == event_type) with
  | [] => .error .eventNotFound
  | [e] =>
    match decode e.data with
    | some v => .ok v
    | none => .error .decodeError
  | _ :: _ :: _ => .error .ambiguousEvent

/-- Payload decoder reading one 32-byte address. -/
def decodeAddrBytes (l : List Nat) : Option AccountAddress :=
  if l.length = 32 then some ⟨l.foldl (fun acc b => acc * 256 + b % 256) 0⟩ else none

/-- Modelled from the spec: the type tag of the "item minted" event searched
by get_mint_token_addr. -/
def mintEventTypeTag : String := "0x4::collection::Mint"

/-- Modelled from the spec: the type tag of the "item burned" event searched
by get_burn_token_addr. -/
def burnEventTypeTag : String := "0x4::collection::Burn"

/-- Modelled from the spec: get_mint_token_addr of the event_lookup module
(missing from src/) — locate the single "item minted" event and extract the
minted token address from it. -/
def get_mint_token_addr (events : List ContractEvent) : Except ExtractError AccountAddress :=
  search_single_event_data decodeAddrBytes events mintEventTypeTag

/-- Modelled from the spec: get_burn_token_addr of the event_lookup module
(missing from src/) — locate the single "item burned" event and extract the
burned token address from it. -/
def get_burn_token_addr (events : List ContractEvent) : Except ExtractError AccountAddress :=
  search_single_event_data decodeAddrBytes events burnEventTypeTag

/-- The transaction stored in on-chain data: a signed user transaction or
one of the other ledger transaction kinds (genesis, block metadata, state
checkpoint), which carry no user signer. -/
inductive ChainTransaction where
  | user (txn : SignedTransaction)
  | other
deriving DecidableEq

/-- Models Transaction::try_as_signed_user_txn. -/
def tryAsSignedUserTxn : ChainTransaction → Option SignedTransaction
  | .user txn => some txn
  | .other => none

/-- Models rest_client TransactionOnChainData as far as the code reads it:
the committed transaction, the success bit of its execution info, and the
emitted events. -/
structure TransactionOnChainData where
  transaction : ChainTransaction
  infoSuccess : Bool
  events : List ContractEvent
deriving DecidableEq

/-- The 4-slot tab-separated format! shape shared by both success_output
implementations. -/
def tabJoin4 (a b c d : String) : String :=
  a ++ "\t" ++ b ++ "\t" ++ c ++ "\t" ++ d

/-- NftMintSignedTransactionBuilder of its_aptos_thing.rs. -/
structure NftMintSignedTransactionBuilder where
  contract_module : ModuleId
  mint_entry_fun : String
  collection_owner_address : AccountAddress
deriving DecidableEq

namespace NftMintSignedTransactionBuilder

/-- NftMintSignedTransactionBuilder::new; none models the unwrap panic on an
invalid module or function identifier. -/
def new (contract_address : AccountAddress) (contract_module_name : String)
    (mint_entry_fun : String) (collection_owner_address : AccountAddress) :
    Option NftMintSignedTransactionBuilder := do
  let m ← get_module_id contract_address contract_module_name
  let f ← identNew mint_entry_fun
  some ⟨m, f, collection_owner_address⟩

/-- build of the mint SignedTransactionBuilder impl: single-agent signing of
an entry-function call with the two BCS arguments
(collection_owner_address, recipient); the updated account carries the
incremented sequence number. -/
def build (b : NftMintSignedTransactionBuilder) (data : AccountAddress)
    (account : LocalAccount) (txn_factory : TransactionFactory) :
    SignedTransaction × LocalAccount :=
  sign_with_transaction_builder account txn_factory
    ⟨b.contract_module, b.mint_entry_fun, [],
      [bcsAddr b.collection_owner_address, bcsAddr data]⟩

/-- success_output of the mint SignedTransactionBuilder impl. -/
def success_output (b : NftMintSignedTransactionBuilder) (data : AccountAddress)
    (txn_out : Option TransactionOnChainData) : String :=
  let p : String × String :=
    match txn_out with
    | some t =>
      match get_mint_token_addr t.events with
      | .ok dst => ("success", dst.toStandardString)
      | .error e => (e.toString, "")
    | none => ("missing", "")
  tabJoin4 p.2 b.collection_owner_address.toStandardString data.toDisplayString p.1

end NftMintSignedTransactionBuilder

/-- NftBurnSignedTransactionBuilder of its_aptos_thing.rs. -/
structure NftBurnSignedTransactionBuilder where
  admin_account : LocalAccount
  contract_module : ModuleId
  burn_entry_fun : String
deriving DecidableEq

namespace NftBurnSignedTransactionBuilder

/-- NftBurnSignedTransactionBuilder::new; none models the unwrap panic on an
invalid module or function identifier. -/
def new (contract_address : AccountAddress) (contract_module_name : String)
    (burn_entry_fun : String) (admin_account : LocalAccount) :
    Option NftBurnSignedTransactionBuilder := do
  let m ← get_module_id contract_address contract_module_name
  let f ← identNew burn_entry_fun
  some ⟨admin_account, m, f⟩

/-- build of the burn SignedTransactionBuilder impl: multi-agent signing
(admin as secondary) of an entry-function call with the two BCS arguments
(collection = data.2, token = data.1); the work item is the pair
(tokenAddress, collectionAddress). -/
def build (b : NftBurnSignedTransactionBuilder) (data : AccountAddress × AccountAddress)
    (account : LocalAccount) (txn_factory : TransactionFactory) :
    SignedTransaction × LocalAccount :=
  sign_multi_agent_with_transaction_builder account [b.admin_account] txn_factory
    ⟨b.contract_module, b.burn_entry_fun, [], [bcsAddr data.2, bcsAddr data.1]⟩

/-- success_output of the burn SignedTransactionBuilder impl.  On a found
burn event the code reads the sender through try_as_signed_user_txn()
followed by unwrap(): none models that unwrap panicking when the on-chain
transaction is not a signed user transaction. -/
def success_output (_b : NftBurnSignedTransactionBuilder)
    (data : AccountAddress × AccountAddress)
    (txn_out : Option TransactionOnChainData) : Option String :=
  let p : Option (String × String) :=
    match txn_out with
    | some t =>
      match get_burn_token_addr t.events with
      | .ok _ =>
        match tryAsSignedUserTxn t.transaction with
        | some st => some ("success", st.sender.toStandardString)
        | none => none
      | .error e => some (e.toString, "")
    | none => some ("missing", "")
  p.map (fun q => tabJoin4 q.2 data.1.toStandardString data.2.toStandardString q.1)

end NftBurnSignedTransactionBuilder

/-- The create-collection event payload struct of its_aptos_thing.rs
(CreateCollectionConfigMoveStruct). -/
structure CreateCollectionConfigMoveStruct where
  collection_config : AccountAddress
  collection : AccountAddress
  ready_to_mint : Bool
deriving DecidableEq

/-- BCS decoder for CreateCollectionConfigMoveStruct: two 32-byte addresses
followed by one bool byte. -/
def decodeCreateCollectionConfig (l : List Nat) :
    Option CreateCollectionConfigMoveStruct :=
  if l.length = 65 then
    match decodeAddrBytes (l.take 32), decodeAddrBytes ((l.drop 32).take 32),
        (l.drop 64) with
    | some a, some b, [0] => some ⟨a, b, false⟩
    | some a, some b, [1] => some ⟨a, b, true⟩
    | _, _, _ => none
  else none

/-- The type tag of the create-collection event the bootstrapper searches:
format!("\x7b\x7d::CreateCollectionConfig", contract_module). -/
def createCollectionEventTag (contract_module : ModuleId) : String :=
  contract_module.toDisplayString ++ "::CreateCollectionConfig"

/-- The create_collection entry-function payload built by
create_test_collection: fourteen BCS arguments, with the collection name
carrying the random suffix produced by rand_string(10). -/
def createCollectionPayload (contract_module : ModuleId) (rand_suffix : String) :
    EntryFunction :=
  ⟨contract_module, "create_collection", [],
    [bcsString ("Test Collection " ++ rand_suffix),
     bcsString "collection description",
     bcsString "htpps://some.collection.uri.test",
     bcsString "test token #",
     bcsString "test token description",
     bcsVecString ["htpps://some.uri1.test", "htpps://some.uri2.test"],
     bcsVecU64 [10, 1],
     bcsBool true,
     bcsBool true,
     bcsBool true,
     bcsBool false,
     bcsOptionU64 (some 1000000),
     bcsOptionU64 none,
     bcsOptionU64 none]⟩

/-- The set_minting_status entry-function payload built by
create_test_collection: the collection owner address and true. -/
def setMintingStatusPayload (contract_module : ModuleId)
    (collection_owner_address : AccountAddress) : EntryFunction :=
  ⟨contract_module, "set_minting_status", [],
    [bcsAddr collection_owner_address, bcsBool true]⟩

/-- A transport / REST failure returned by submit_and_wait_bcs and
propagated by the question-mark operator. -/
inductive ClientError where
  | transport
deriving DecidableEq

/-- The ways create_test_collection can fail: an unwrap panic on an invalid
module identifier, a propagated client error, the assert! on a
non-success execution status, or a propagated event-extraction error. -/
inductive BootstrapError where
  | invalidModuleName
  | client (e : ClientError)
  | statusAssertFailed
  | extract (e : ExtractError)
deriving DecidableEq

/-- create_test_collection of its_aptos_thing.rs.  The REST client is
modelled as a function from the submitted signed transaction to the
finalized on-chain data (or a transport error); rand_string(10) is modelled
by the explicit rand_suffix argument.  The returned list records every
transaction submitted, in order, so temporal claims about what was
submitted before a failure are statable. -/
def create_test_collection (contract_address : AccountAddress)
    (contract_module_name : String) (admin_account : LocalAccount)
    (client : SignedTransaction → Except ClientError TransactionOnChainData)
    (txn_factory : TransactionFactory) (rand_suffix : String) :
    List SignedTransaction × Except BootstrapError AccountAddress :=
  match get_module_id contract_address contract_module_name with
  | none => ([], .error .invalidModuleName)
  | some contract_module =>
    let s1 := sign_with_transaction_builder admin_account txn_factory
      (createCollectionPayload contract_module rand_suffix)
    let create_collection_txn := s1.1
    match client create_collection_txn with
    | .error e => ([create_collection_txn], .error (.client e))
    | .ok output =>
      if output.infoSuccess = false then
        ([create_collection_txn], .error .statusAssertFailed)
      else
        match search_single_event_data decodeCreateCollectionConfig output.events
            (createCollectionEventTag contract_module) with
        | .error e => ([create_collection_txn], .error (.extract e))
        | .ok create_collection_event =>
          let collection_owner_address := create_collection_event.collection_config
          let s2 := sign_with_transaction_builder s1.2 txn_factory
            (setMintingStatusPayload contract_module collection_owner_address)
          let start_minting_txn := s2.1
          match client start_minting_txn with
          | .error e =>
            ([create_collection_txn, start_minting_txn], .error (.client e))
          | .ok output2 =>
            if output2.infoSuccess = false then
              ([create_collection_txn, start_minting_txn], .error .statusAssertFailed)
            else
              ([create_collection_txn, start_minting_txn], .ok collection_owner_address)

/-! ## Helper lemmas -/

/-- Number of tab characters in a string; a line with exactly three tabs has
exactly four tab-separated fields. -/
def tabCount (s : String) : Nat := s.data.count '\t'

theorem tabCount_append (s t : String) : tabCount (s ++ t) = tabCount s + tabCount t := by
  simp [tabCount, String.data_append, List.count_append]

theorem tabCount_tabJoin4 (a b c d : String) :
    tabCount (tabJoin4 a b c d) =
      tabCount a + tabCount b + tabCount c + tabCount d + 3 := by
  simp [tabJoin4, tabCount_append]
  have h : tabCount "\t" = 1 := by decide
  rw [h]; ring

theorem hexDigit_ne_tab (n : Nat) : hexDigit n ≠ '\t' := by
  unfold hexDigit
  have h : n % 16 < 16 := Nat.mod_lt _ (by omega)
  revert h
  generalize n % 16 = m
  intro h
  interval_cases m <;> decide

theorem tab_not_mem_byteHexFlatten (bs : List Nat) :
    '\t' ∉ (bs.map byteHex).flatten := by
  intro hmem
  rw [List.mem_flatten] at hmem
  obtain ⟨l, hl, hml⟩ := hmem
  rw [List.mem_map] at hl
  obtain ⟨b, _, rfl⟩ := hl
  simp only [byteHex, List.mem_cons, List.mem_singleton] at hml
  rcases hml with h | h
  · exact hexDigit_ne_tab _ h.symm
  · rcases h with h | h
    · exact hexDigit_ne_tab _ h.symm
    · simp at h

theorem tabCount_toStandardString (a : AccountAddress) :
    tabCount a.toStandardString = 0 := by
  rw [AccountAddress.toStandardString, tabCount_append]
  have h1 : tabCount "0x" = 0 := by decide
  have h2 : tabCount (String.mk ((a.toBytes.map byteHex).flatten)) = 0 :=
    List.count_eq_zero.mpr (tab_not_mem_byteHexFlatten _)
  rw [h1, h2]

theorem tabCount_toDisplayString (a : AccountAddress) :
    tabCount a.toDisplayString = 0 := by
  rw [AccountAddress.toDisplayString]
  exact List.count_eq_zero.mpr (tab_not_mem_byteHexFlatten _)

theorem tabCount_extractError (e : ExtractError) : tabCount e.toString = 0 := by
  cases e <;> decide

theorem natToBytesLE_length (v k : Nat) : (natToBytesLE v k).length = k := by
  induction k generalizing v with
  | zero => rfl
  | succ k ih => simp [natToBytesLE, ih]

theorem toBytes_length (a : AccountAddress) : a.toBytes.length = 32 := by
  simp [AccountAddress.toBytes, natToBytesLE_length]

theorem toStandardString_ne_empty (a : AccountAddress) :
    a.toStandardString ≠ "" := by
  intro h
  rw [String.ext_iff] at h
  rw [AccountAddress.toStandardString, String.data_append] at h
  simp at h

theorem toDisplayString_ne_empty (a : AccountAddress) :
    a.toDisplayString ≠ "" := by
  intro h
  rw [String.ext_iff] at h
  rw [AccountAddress.toDisplayString] at h
  have hlen : a.toBytes.length = 32 := toBytes_length a
  cases htb : a.toBytes with
  | nil => rw [htb] at hlen; simp at hlen
  | cons b t => rw [htb] at h; simp [byteHex] at h

theorem mint_success_output_ok (b : NftMintSignedTransactionBuilder)
    (d : AccountAddress) (t : TransactionOnChainData) (dst : AccountAddress)
    (h : get_mint_token_addr t.events = .ok dst) :
    b.success_output d (some t) =
      tabJoin4 dst.toStandardString b.collection_owner_address.toStandardString
        d.toDisplayString "success" := by
  simp [NftMintSignedTransactionBuilder.success_output, h]

theorem mint_success_output_err (b : NftMintSignedTransactionBuilder)
    (d : AccountAddress) (t : TransactionOnChainData) (e : ExtractError)
    (h : get_mint_token_addr t.events = .error e) :
    b.success_output d (some t) =
      tabJoin4 "" b.collection_owner_address.toStandardString
        d.toDisplayString e.toString := by
  simp [NftMintSignedTransactionBuilder.success_output, h]

theorem burn_success_output_ok (b : NftBurnSignedTransactionBuilder)
    (d : AccountAddress × AccountAddress) (t : TransactionOnChainData)
    (dst : AccountAddress) (st : SignedTransaction)
    (h1 : get_burn_token_addr t.events = .ok dst)
    (h2 : tryAsSignedUserTxn t.transaction = some st) :
    b.success_output d (some t) =
      some (tabJoin4 st.sender.toStandardString d.1.toStandardString
        d.2.toStandardString "success") := by
  simp [NftBurnSignedTransactionBuilder.success_output, h1, h2]

theorem burn_success_output_err (b : NftBurnSignedTransactionBuilder)
    (d : AccountAddress × AccountAddress) (t : TransactionOnChainData)
    (e : ExtractError) (h : get_burn_token_addr t.events = .error e) :
    b.success_output d (some t) =
      some (tabJoin4 "" d.1.toStandardString d.2.toStandardString e.toString) := by
  simp [NftBurnSignedTransactionBuilder.success_output, h]

theorem burn_success_output_panics (b : NftBurnSignedTransactionBuilder)
    (d : AccountAddress × AccountAddress) (t : TransactionOnChainData)
    (dst : AccountAddress) (h1 : get_burn_token_addr t.events = .ok dst)
    (h2 : tryAsSignedUserTxn t.transaction = none) :
    b.success_output d (some t) = none := by
  simp [NftBurnSignedTransactionBuilder.success_output, h1, h2]

/-! ## Claims -/

/-- C4: for every WorkItem, the Mint build produces an entry-function call
with exactly two BCS-encoded arguments in the order
(collectionAddress, recipientAddress), and the Burn build produces exactly
two in the order (collectionAddress, tokenAddress), the burn WorkItem being
the pair (tokenAddress, collectionAddress). -/
theorem c4_build_two_args_fixed_order :
    (∀ (b : NftMintSignedTransactionBuilder) (data : AccountAddress)
        (account : LocalAccount) (txn_factory : TransactionFactory),
      (b.build data account txn_factory).1.raw.payload.args =
          [bcsAddr b.collection_owner_address, bcsAddr data] ∧
        (b.build data account txn_factory).1.raw.payload.args.length = 2) ∧
    (∀ (b : NftBurnSignedTransactionBuilder)
        (data : AccountAddress × AccountAddress)
        (account : LocalAccount) (txn_factory : TransactionFactory),
      (b.build data account txn_factory).1.raw.payload.args =
          [bcsAddr data.2, bcsAddr data.1] ∧
        (b.build data account txn_factory).1.raw.payload.args.length = 2) :=
  ⟨fun _ _ _ _ => ⟨rfl, rfl⟩, fun _ _ _ _ => ⟨rfl, rfl⟩⟩

/-- C7: when the outcome is absent, both variants return a line whose status
field is exactly "missing" and whose event-derived field is the empty
string, while the WorkItem- and configuration-derived address fields are
still populated (nonempty). -/
theorem c7_missing_outcome_line :
    (∀ (b : NftMintSignedTransactionBuilder) (data : AccountAddress),
      b.success_output data none =
          tabJoin4 "" b.collection_owner_address.toStandardString
            data.toDisplayString "missing" ∧
        b.collection_owner_address.toStandardString ≠ "" ∧
        data.toDisplayString ≠ "") ∧
    (∀ (b : NftBurnSignedTransactionBuilder)
        (data : AccountAddress × AccountAddress),
      b.success_output data none =
          some (tabJoin4 "" data.1.toStandardString data.2.toStandardString
            "missing") ∧
        data.1.toStandardString ≠ "" ∧ data.2.toStandardString ≠ "") :=
  ⟨fun _ _ => ⟨rfl, toStandardString_ne_empty _, toDisplayString_ne_empty _⟩,
   fun _ _ => ⟨rfl, toStandardString_ne_empty _, toStandardString_ne_empty _⟩⟩

/-- C2 (amended): the Mint success_output always returns normally with a
line of exactly four tab-separated fields; the Burn success_output does so
whenever the outcome is absent, or the burn event is not found, or the
outcome's transaction is a signed user transaction — in the one remaining
case (present outcome, burn event found, non-user transaction) it panics on
unwrap, modelled as none. -/
theorem c2_success_output_four_fields :
    (∀ (b : NftMintSignedTransactionBuilder) (data : AccountAddress)
        (out : Option TransactionOnChainData),
      tabCount (b.success_output data out) = 3) ∧
    (∀ (b : NftBurnSignedTransactionBuilder)
        (data : AccountAddress × AccountAddress),
      ∃ s, b.success_output data none = some s ∧ tabCount s = 3) ∧
    (∀ (b : NftBurnSignedTransactionBuilder)
        (data : AccountAddress × AccountAddress) (t : TransactionOnChainData),
      (get_burn_token_addr t.events).isOk = false →
        ∃ s, b.success_output data (some t) = some s ∧ tabCount s = 3) ∧
    (∀ (b : NftBurnSignedTransactionBuilder)
        (data : AccountAddress × AccountAddress) (t : TransactionOnChainData)
        (st : SignedTransaction),
      tryAsSignedUserTxn t.transaction = some st →
        ∃ s, b.success_output data (some t) = some s ∧ tabCount s = 3) := by
  refine ⟨?_, ?_, ?_, ?_⟩
  · intro b d out
    cases out with
    | none =>
      show tabCount (tabJoin4 "" b.collection_owner_address.toStandardString
        d.toDisplayString "missing") = 3
      rw [tabCount_tabJoin4, tabCount_toStandardString, tabCount_toDisplayString]
      decide
    | some t =>
      rcases h : get_mint_token_addr t.events with e | dst
      · rw [mint_success_output_err b d t e h, tabCount_tabJoin4,
          tabCount_toStandardString, tabCount_toDisplayString, tabCount_extractError]
        decide
      · rw [mint_success_output_ok b d t dst h, tabCount_tabJoin4,
          tabCount_toStandardString, tabCount_toStandardString, tabCount_toDisplayString]
        decide
  · intro b d
    refine ⟨_, rfl, ?_⟩
    rw [tabCount_tabJoin4, tabCount_toStandardString, tabCount_toStandardString]
    decide
  · intro b d t h
    rcases he : get_burn_token_addr t.events with e | dst
    · refine ⟨_, burn_success_output_err b d t e he, ?_⟩
      rw [tabCount_tabJoin4, tabCount_toStandardString, tabCount_toStandardString,
        tabCount_extractError]
      decide
    · rw [he] at h
      simp [Except.isOk, Except.toBool] at h
  · intro b d t st h
    rcases he : get_burn_token_addr t.events with e | dst
    · refine ⟨_, burn_success_output_err b d t e he, ?_⟩
      rw [tabCount_tabJoin4, tabCount_toStandardString, tabCount_toStandardString,
        tabCount_extractError]
      decide
    · refine ⟨_, burn_success_output_ok b d t dst st he h, ?_⟩
      rw [tabCount_tabJoin4, tabCount_toStandardString, tabCount_toStandardString,
        tabCount_toStandardString]
      decide

/-- Witness for C2: the burn conjuncts applied at concrete inputs — an
outcome with no events (event search fails), and a user-transaction outcome. -/
theorem c2_success_output_four_fields_witness :
    (∃ s, NftBurnSignedTransactionBuilder.success_output
        ⟨⟨⟨3⟩, 0⟩, ⟨⟨5⟩, "only_on_aptos"⟩, "burn_with_admin_worker"⟩
        (⟨1⟩, ⟨2⟩) (some ⟨.other, true, []⟩) = some s ∧ tabCount s = 3) ∧
    (∃ s, NftBurnSignedTransactionBuilder.success_output
        ⟨⟨⟨3⟩, 0⟩, ⟨⟨5⟩, "only_on_aptos"⟩, "burn_with_admin_worker"⟩
        (⟨1⟩, ⟨2⟩)
        (some ⟨.user ⟨⟨⟨9⟩, 0, ⟨⟨⟨5⟩, "m"⟩, "f", [], []⟩, 4⟩, []⟩, false, []⟩) =
          some s ∧ tabCount s = 3) :=
  ⟨c2_success_output_four_fields.2.2.1 _ _ _ rfl,
   c2_success_output_four_fields.2.2.2 _ _ _ _ rfl⟩

/-- Counterexample to C2 as stated: with a present outcome whose events
contain the burn event but whose committed transaction is not a signed user
transaction, the Burn success_output panics on unwrap (modelled as none)
instead of returning a line. -/
theorem c2_counterexample :
    NftBurnSignedTransactionBuilder.success_output
      ⟨⟨⟨3⟩, 0⟩, ⟨⟨5⟩, "only_on_aptos"⟩, "burn_with_admin_worker"⟩
      (⟨1⟩, ⟨2⟩)
      (some ⟨.other, true, [⟨burnEventTypeTag, List.replicate 32 0⟩]⟩) = none := by
  decide

/-- C8: with a present outcome in which the expected event is not found (or
malformed/ambiguous), both variants return a line whose status field equals
the stringified extraction error, whose event-derived field is the empty
string and whose WorkItem-derived address fields are still populated; the
Burn variant returns normally (some line), so the extraction error is never
propagated out of success_output as a failure. -/
theorem c8_extraction_error_in_status :
    (∀ (b : NftMintSignedTransactionBuilder) (data : AccountAddress)
        (t : TransactionOnChainData) (e : ExtractError),
      get_mint_token_addr t.events = .error e →
        b.success_output data (some t) =
            tabJoin4 "" b.collection_owner_address.toStandardString
              data.toDisplayString e.toString ∧
          b.collection_owner_address.toStandardString ≠ "" ∧
          data.toDisplayString ≠ "") ∧
    (∀ (b : NftBurnSignedTransactionBuilder)
        (data : AccountAddress × AccountAddress)
        (t : TransactionOnChainData) (e : ExtractError),
      get_burn_token_addr t.events = .error e →
        b.success_output data (some t) =
            some (tabJoin4 "" data.1.toStandardString data.2.toStandardString
              e.toString) ∧
          data.1.toStandardString ≠ "" ∧ data.2.toStandardString ≠ "") :=
  ⟨fun b d t e h =>
    ⟨mint_success_output_err b d t e h, toStandardString_ne_empty _,
      toDisplayString_ne_empty _⟩,
   fun b d t e h =>
    ⟨burn_success_output_err b d t e h, toStandardString_ne_empty _,
      toStandardString_ne_empty _⟩⟩

/-- Witness for C8: both variants applied to a present outcome with no
events, where the event search fails with EventNotFound. -/
theorem c8_extraction_error_in_status_witness :
    (NftMintSignedTransactionBuilder.success_output
        ⟨⟨⟨5⟩, "only_on_aptos"⟩, "mint_to_recipient", ⟨7⟩⟩ ⟨1⟩
        (some ⟨.other, true, []⟩) =
          tabJoin4 "" (AccountAddress.toStandardString ⟨7⟩)
            (AccountAddress.toDisplayString ⟨1⟩)
            ExtractError.eventNotFound.toString ∧
        AccountAddress.toStandardString ⟨7⟩ ≠ "" ∧
        AccountAddress.toDisplayString ⟨1⟩ ≠ "") ∧
    (NftBurnSignedTransactionBuilder.success_output
        ⟨⟨⟨3⟩, 0⟩, ⟨⟨5⟩, "only_on_aptos"⟩, "burn_with_admin_worker"⟩
        (⟨1⟩, ⟨2⟩) (some ⟨.other, true, []⟩) =
          some (tabJoin4 "" (AccountAddress.toStandardString ⟨1⟩)
            (AccountAddress.toStandardString ⟨2⟩)
            ExtractError.eventNotFound.toString) ∧
        AccountAddress.toStandardString ⟨1⟩ ≠ "" ∧
        AccountAddress.toStandardString ⟨2⟩ ≠ "") :=
  ⟨c8_extraction_error_in_status.1 _ _ _ _ rfl,
   c8_extraction_error_in_status.2 _ _ _ _ rfl⟩

/-- C5: for every burn WorkItem (tokenAddress, collectionAddress) with a
present outcome in which the burn event is found (and hence a committed
signed user transaction to read the sender from), success_output returns
refundAddress, tokenAddress, collectionAddress, "success" tab-separated,
the refund address being the standard string form of the transaction's
primary signer. -/
theorem c5_burn_refund_is_sender :
    ∀ (b : NftBurnSignedTransactionBuilder)
      (data : AccountAddress × AccountAddress) (t : TransactionOnChainData)
      (dst : AccountAddress) (st : SignedTransaction),
      get_burn_token_addr t.events = .ok dst →
      tryAsSignedUserTxn t.transaction = some st →
      b.success_output data (some t) =
        some (tabJoin4 st.sender.toStandardString data.1.toStandardString
          data.2.toStandardString "success") :=
  fun b d t dst st h1 h2 => burn_success_output_ok b d t dst st h1 h2

/-- Witness for C5: a concrete outcome holding one burn event and a user
transaction with sender address 9. -/
theorem c5_burn_refund_is_sender_witness :
    NftBurnSignedTransactionBuilder.success_output
      ⟨⟨⟨3⟩, 0⟩, ⟨⟨5⟩, "only_on_aptos"⟩, "burn_with_admin_worker"⟩ (⟨1⟩, ⟨2⟩)
      (some ⟨.user ⟨⟨⟨9⟩, 0, ⟨⟨⟨5⟩, "m"⟩, "f", [], []⟩, 4⟩, []⟩, true,
        [⟨burnEventTypeTag, List.replicate 32 0⟩]⟩) =
      some (tabJoin4
        (AccountAddress.toStandardString
          (SignedTransaction.sender ⟨⟨⟨9⟩, 0, ⟨⟨⟨5⟩, "m"⟩, "f", [], []⟩, 4⟩, []⟩))
        (AccountAddress.toStandardString ⟨1⟩)
        (AccountAddress.toStandardString ⟨2⟩) "success") :=
  c5_burn_refund_is_sender _ _ _ ⟨0⟩ _ rfl rfl

/-- C10: for every present outcome, both variants determine the status
solely from the event search over the outcome's emitted events: the
finalStatusIsSuccess flag is never consulted (flipping it never changes the
output), and when the expected event is found the status is "success" even
when the outcome's final execution status is failure. -/
theorem c10_status_ignores_execution_flag :
    (∀ (b : NftMintSignedTransactionBuilder) (data : AccountAddress)
        (t : TransactionOnChainData) (flag : Bool),
      b.success_output data (some { t with infoSuccess := flag }) =
        b.success_output data (some t)) ∧
    (∀ (b : NftBurnSignedTransactionBuilder)
        (data : AccountAddress × AccountAddress)
        (t : TransactionOnChainData) (flag : Bool),
      b.success_output data (some { t with infoSuccess := flag }) =
        b.success_output data (some t)) ∧
    (∀ (b : NftMintSignedTransactionBuilder) (data : AccountAddress)
        (t : TransactionOnChainData) (dst : AccountAddress),
      get_mint_token_addr t.events = .ok dst → t.infoSuccess = false →
        b.success_output data (some t) =
          tabJoin4 dst.toStandardString
            b.collection_owner_address.toStandardString data.toDisplayString
            "success") ∧
    (∀ (b : NftBurnSignedTransactionBuilder)
        (data : AccountAddress × AccountAddress) (t : TransactionOnChainData)
        (dst : AccountAddress) (st : SignedTransaction),
      get_burn_token_addr t.events = .ok dst →
      tryAsSignedUserTxn t.transaction = some st → t.infoSuccess = false →
        b.success_output data (some t) =
          some (tabJoin4 st.sender.toStandardString data.1.toStandardString
            data.2.toStandardString "success")) :=
  ⟨fun _ _ _ _ => rfl, fun _ _ _ _ => rfl,
   fun b d t dst h _ => mint_success_output_ok b d t dst h,
   fun b d t dst st h1 h2 _ => burn_success_output_ok b d t dst st h1 h2⟩

/-- Witness for C10: both found-event conjuncts applied to concrete outcomes
whose execution status flag is false. -/
theorem c10_status_ignores_execution_flag_witness :
    (NftMintSignedTransactionBuilder.success_output
        ⟨⟨⟨5⟩, "only_on_aptos"⟩, "mint_to_recipient", ⟨7⟩⟩ ⟨1⟩
        (some ⟨.other, false, [⟨mintEventTypeTag, List.replicate 32 0⟩]⟩) =
          tabJoin4 (AccountAddress.toStandardString ⟨0⟩)
            (AccountAddress.toStandardString ⟨7⟩)
            (AccountAddress.toDisplayString ⟨1⟩) "success") ∧
    (NftBurnSignedTransactionBuilder.success_output
        ⟨⟨⟨3⟩, 0⟩, ⟨⟨5⟩, "only_on_aptos"⟩, "burn_with_admin_worker"⟩ (⟨1⟩, ⟨2⟩)
        (some ⟨.user ⟨⟨⟨9⟩, 0, ⟨⟨⟨5⟩, "m"⟩, "f", [], []⟩, 4⟩, []⟩, false,
          [⟨burnEventTypeTag, List.replicate 32 0⟩]⟩) =
          some (tabJoin4
            (AccountAddress.toStandardString
              (SignedTransaction.sender ⟨⟨⟨9⟩, 0, ⟨⟨⟨5⟩, "m"⟩, "f", [], []⟩, 4⟩, []⟩))
            (AccountAddress.toStandardString ⟨1⟩)
            (AccountAddress.toStandardString ⟨2⟩) "success")) :=
  ⟨c10_status_ignores_execution_flag.2.2.1 _ _ _ ⟨0⟩ rfl rfl,
   c10_status_ignores_execution_flag.2.2.2 _ _ _ ⟨0⟩ _ rfl rfl rfl⟩

/-- C9: module reference resolution (get_module_id and the builder
constructors calling it) fails at construction time exactly when the module
name is not a syntactically valid identifier, and on valid names succeeds
with the ModuleReference fully determined by the inputs (deterministic). -/
theorem c9_module_resolution :
    (∀ (a : AccountAddress) (n : String),
      isValidIdentifier n = false → get_module_id a n = none) ∧
    (∀ (a : AccountAddress) (n : String),
      isValidIdentifier n = true → get_module_id a n = some ⟨a, n⟩) ∧
    (∀ (a : AccountAddress) (n f : String) (c : AccountAddress),
      isValidIdentifier n = false →
        NftMintSignedTransactionBuilder.new a n f c = none) ∧
    (∀ (a : AccountAddress) (n f : String) (c : AccountAddress),
      isValidIdentifier n = true → isValidIdentifier f = true →
        NftMintSignedTransactionBuilder.new a n f c = some ⟨⟨a, n⟩, f, c⟩) ∧
    (∀ (a : AccountAddress) (n f : String) (acct : LocalAccount),
      isValidIdentifier n = false →
        NftBurnSignedTransactionBuilder.new a n f acct = none) ∧
    (∀ (a : AccountAddress) (n f : String) (acct : LocalAccount),
      isValidIdentifier n = true → isValidIdentifier f = true →
        NftBurnSignedTransactionBuilder.new a n f acct = some ⟨acct, ⟨a, n⟩, f⟩) := by
  refine ⟨?_, ?_, ?_, ?_, ?_, ?_⟩
  · intro a n h; simp [get_module_id, identNew, h]
  · intro a n h; simp [get_module_id, identNew, h]
  · intro a n f c h
    simp [NftMintSignedTransactionBuilder.new, get_module_id, identNew, h]
  · intro a n f c h1 h2
    simp [NftMintSignedTransactionBuilder.new, get_module_id, identNew, h1, h2]
  · intro a n f acct h
    simp [NftBurnSignedTransactionBuilder.new, get_module_id, identNew, h]
  · intro a n f acct h1 h2
    simp [NftBurnSignedTransactionBuilder.new, get_module_id, identNew, h1, h2]

/-- Witness for C9: the default module name "only_on_aptos" is valid and
resolves; "9bad" has a leading digit and fails construction. -/
theorem c9_module_resolution_witness :
    get_module_id ⟨5⟩ "only_on_aptos" = some ⟨⟨5⟩, "only_on_aptos"⟩ ∧
    get_module_id ⟨5⟩ "9bad" = none ∧
    NftMintSignedTransactionBuilder.new ⟨5⟩ "only_on_aptos" "mint_to_recipient" ⟨7⟩ =
      some ⟨⟨⟨5⟩, "only_on_aptos"⟩, "mint_to_recipient", ⟨7⟩⟩ ∧
    NftBurnSignedTransactionBuilder.new ⟨5⟩ "9bad" "burn_with_admin_worker" ⟨⟨3⟩, 0⟩ =
      none :=
  ⟨c9_module_resolution.2.1 _ _ (by decide),
   c9_module_resolution.1 _ _ (by decide),
   c9_module_resolution.2.2.2.1 _ _ _ _ (by decide) (by decide),
   c9_module_resolution.2.2.2.2.1 _ _ _ _ (by decide)⟩

/-- C3 (amended): success_output takes no signing state and is a pure
function of its arguments plus the builder configuration (it is embedded as
a pure function); build is deterministic given the signing identity's
address and current sequence number, consumes that sequence number into the
raw transaction, and increments it — so a call does mutate the signing
identity's sequence-number state, and consecutive calls with the same
WorkItem differ in sequence number.  The builder configuration itself is
never mutated (the updated state returned is only the per-call account). -/
theorem c3_build_deterministic_modulo_sequence :
    (∀ (b : NftMintSignedTransactionBuilder) (data : AccountAddress)
        (account : LocalAccount) (txn_factory : TransactionFactory),
      (b.build data account txn_factory).2 =
          ⟨account.address, account.sequenceNumber + 1⟩ ∧
        (b.build data account txn_factory).1.raw.sequenceNumber =
          account.sequenceNumber ∧
        ∀ account2 : LocalAccount, account2.address = account.address →
          account2.sequenceNumber = account.sequenceNumber →
          b.build data account2 txn_factory = b.build data account txn_factory) ∧
    (∀ (b : NftBurnSignedTransactionBuilder)
        (data : AccountAddress × AccountAddress)
        (account : LocalAccount) (txn_factory : TransactionFactory),
      (b.build data account txn_factory).2 =
          ⟨account.address, account.sequenceNumber + 1⟩ ∧
        (b.build data account txn_factory).1.raw.sequenceNumber =
          account.sequenceNumber ∧
        ∀ account2 : LocalAccount, account2.address = account.address →
          account2.sequenceNumber = account.sequenceNumber →
          b.build data account2 txn_factory = b.build data account txn_factory) := by
  constructor
  · intro b d account f
    refine ⟨rfl, rfl, ?_⟩
    intro a2 h1 h2
    cases account; cases a2
    simp only [LocalAccount.mk.injEq] at *
    subst h1; subst h2; rfl
  · intro b d account f
    refine ⟨rfl, rfl, ?_⟩
    intro a2 h1 h2
    cases account; cases a2
    simp only [LocalAccount.mk.injEq] at *
    subst h1; subst h2; rfl

/-- Witness for C3: a concrete mint build consumes sequence number 0 and
leaves the account at sequence number 1; an account equal in address and
sequence number yields the identical transaction. -/
theorem c3_build_deterministic_modulo_sequence_witness :
    (NftMintSignedTransactionBuilder.build
        ⟨⟨⟨5⟩, "only_on_aptos"⟩, "mint_to_recipient", ⟨7⟩⟩ ⟨1⟩ ⟨⟨9⟩, 0⟩
        ⟨4, 100, 100⟩).2 = ⟨⟨9⟩, 0 + 1⟩ ∧
    (NftMintSignedTransactionBuilder.build
        ⟨⟨⟨5⟩, "only_on_aptos"⟩, "mint_to_recipient", ⟨7⟩⟩ ⟨1⟩ ⟨⟨9⟩, 0⟩
        ⟨4, 100, 100⟩).1.raw.sequenceNumber = 0 ∧
    NftMintSignedTransactionBuilder.build
        ⟨⟨⟨5⟩, "only_on_aptos"⟩, "mint_to_recipient", ⟨7⟩⟩ ⟨1⟩ ⟨⟨9⟩, 0⟩
        ⟨4, 100, 100⟩ =
      NftMintSignedTransactionBuilder.build
        ⟨⟨⟨5⟩, "only_on_aptos"⟩, "mint_to_recipient", ⟨7⟩⟩ ⟨1⟩ ⟨⟨9⟩, 0⟩
        ⟨4, 100, 100⟩ :=
  ⟨(c3_build_deterministic_modulo_sequence.1 _ _ _ _).1,
   (c3_build_deterministic_modulo_sequence.1 _ _ _ _).2.1,
   (c3_build_deterministic_modulo_sequence.1 _ _ _ _).2.2 _ rfl rfl⟩

/-- Counterexample to C3 as stated: a mint build call changes the signing
identity's sequence-number state, and a second call with the same WorkItem
(on the account state the first call left behind) produces a different
signed transaction. -/
theorem c3_counterexample :
    (NftMintSignedTransactionBuilder.build
        ⟨⟨⟨5⟩, "only_on_aptos"⟩, "mint_to_recipient", ⟨7⟩⟩ ⟨1⟩ ⟨⟨9⟩, 0⟩
        ⟨4, 100, 100⟩).2 ≠ ⟨⟨9⟩, 0⟩ ∧
    (NftMintSignedTransactionBuilder.build
        ⟨⟨⟨5⟩, "only_on_aptos"⟩, "mint_to_recipient", ⟨7⟩⟩ ⟨1⟩
        (NftMintSignedTransactionBuilder.build
          ⟨⟨⟨5⟩, "only_on_aptos"⟩, "mint_to_recipient", ⟨7⟩⟩ ⟨1⟩ ⟨⟨9⟩, 0⟩
          ⟨4, 100, 100⟩).2
        ⟨4, 100, 100⟩).1 ≠
      (NftMintSignedTransactionBuilder.build
        ⟨⟨⟨5⟩, "only_on_aptos"⟩, "mint_to_recipient", ⟨7⟩⟩ ⟨1⟩ ⟨⟨9⟩, 0⟩
        ⟨4, 100, 100⟩).1 := by
  constructor
  · intro h
    have := congrArg LocalAccount.sequenceNumber h
    simp [NftMintSignedTransactionBuilder.build, sign_with_transaction_builder] at this
  · intro h
    have := congrArg (fun st => st.raw.sequenceNumber) h
    simp [NftMintSignedTransactionBuilder.build, sign_with_transaction_builder] at this

/-- C6: if the create-collection transaction finalizes successfully but the
emitted events contain zero or more than one event of the expected
CreateCollectionConfig type, the bootstrap returns an extraction error and
the only transaction ever submitted is the create-collection one — no
set_minting_status activation transaction is constructed or submitted. -/
theorem c6_bootstrap_fails_before_activation :
    ∀ (contract_address : AccountAddress) (contract_module_name : String)
      (admin_account : LocalAccount)
      (client : SignedTransaction → Except ClientError TransactionOnChainData)
      (txn_factory : TransactionFactory) (rand_suffix : String)
      (m : ModuleId) (output : TransactionOnChainData),
      get_module_id contract_address contract_module_name = some m →
      client (sign_with_transaction_builder admin_account txn_factory
        (createCollectionPayload m rand_suffix)).1 = .ok output →
      output.infoSuccess = true →
      (output.events.filter
        (fun e => e.typeTag == createCollectionEventTag m)).length ≠ 1 →
      ∃ e, create_test_collection contract_address contract_module_name
          admin_account client txn_factory rand_suffix =
        ([(sign_with_transaction_builder admin_account txn_factory
            (createCollectionPayload m rand_suffix)).1],
          .error (.extract e)) := by
  intro ca mn admin client fac suf m output hmod hclient hsucc hlen
  obtain ⟨er, hsearch⟩ : ∃ er, search_single_event_data
      decodeCreateCollectionConfig output.events (createCollectionEventTag m) =
        .error er := by
    rcases hf : output.events.filter
        (fun e => e.typeTag == createCollectionEventTag m) with _ | ⟨x, _ | ⟨y, tl⟩⟩
    · refine ⟨.eventNotFound, ?_⟩
      unfold search_single_event_data
      rw [hf]
    · exfalso; rw [hf] at hlen; simp at hlen
    · refine ⟨.ambiguousEvent, ?_⟩
      unfold search_single_event_data
      rw [hf]
  refine ⟨er, ?_⟩
  unfold create_test_collection
  rw [hmod]
  simp only [hclient, hsucc, hsearch]
  simp

/-- Witness for C6: a client whose create-collection response is successful
but carries no events at all — the bootstrap stops with an extraction error
after submitting only the create transaction. -/
theorem c6_bootstrap_fails_before_activation_witness :
    ∃ e, create_test_collection ⟨5⟩ "only_on_aptos" ⟨⟨3⟩, 0⟩
        (fun _ => .ok ⟨.other, true, []⟩) ⟨4, 100, 100⟩ "abc" =
      ([(sign_with_transaction_builder ⟨⟨3⟩, 0⟩ ⟨4, 100, 100⟩
          (createCollectionPayload ⟨⟨5⟩, "only_on_aptos"⟩ "abc")).1],
        .error (.extract e)) :=
  c6_bootstrap_fails_before_activation ⟨5⟩ "only_on_aptos" ⟨⟨3⟩, 0⟩
    (fun _ => .ok ⟨.other, true, []⟩) ⟨4, 100, 100⟩ "abc"
    ⟨⟨5⟩, "only_on_aptos"⟩ ⟨.other, true, []⟩ rfl rfl rfl (by decide)

/-- C1 (amended): whenever the create-collection transaction succeeds and
the single CreateCollectionConfig event is decoded, the bootstrap submits
exactly one further transaction, whose payload is the set_minting_status
call whose first BCS argument is the collection_config field (the
collectionConfigAddress) of the decoded event — an address coming from the
event, never from the caller's arguments. -/
theorem c1_activation_targets_event_config_address :
    ∀ (contract_address : AccountAddress) (contract_module_name : String)
      (admin_account : LocalAccount)
      (client : SignedTransaction → Except ClientError TransactionOnChainData)
      (txn_factory : TransactionFactory) (rand_suffix : String)
      (m : ModuleId) (output : TransactionOnChainData)
      (ev : CreateCollectionConfigMoveStruct),
      get_module_id contract_address contract_module_name = some m →
      client (sign_with_transaction_builder admin_account txn_factory
        (createCollectionPayload m rand_suffix)).1 = .ok output →
      output.infoSuccess = true →
      search_single_event_data decodeCreateCollectionConfig output.events
        (createCollectionEventTag m) = .ok ev →
      ∃ t2, (create_test_collection contract_address contract_module_name
          admin_account client txn_factory rand_suffix).1 =
          [(sign_with_transaction_builder admin_account txn_factory
            (createCollectionPayload m rand_suffix)).1, t2] ∧
        t2.raw.payload = setMintingStatusPayload m ev.collection_config ∧
        (setMintingStatusPayload m ev.collection_config).args =
          [bcsAddr ev.collection_config, bcsBool true] := by
  intro ca mn admin client fac suf m output ev hmod hclient hsucc hsearch
  refine ⟨(sign_with_transaction_builder
    (sign_with_transaction_builder admin fac (createCollectionPayload m suf)).2
    fac (setMintingStatusPayload m ev.collection_config)).1, ?_, rfl, rfl⟩
  unfold create_test_collection
  rw [hmod]
  simp only [hclient, hsucc, hsearch]
  rw [if_neg (by simp)]
  rcases hc2 : client (sign_with_transaction_builder
      (sign_with_transaction_builder admin fac (createCollectionPayload m suf)).2
      fac (setMintingStatusPayload m ev.collection_config)).1 with e | o2
  · rfl
  · split
    · rfl
    · split <;> rfl

/-- Witness for C1: a client returning one well-formed
CreateCollectionConfig event with collection_config address 1; the second
submitted transaction targets address 1. -/
theorem c1_activation_targets_event_config_address_witness :
    ∃ t2, (create_test_collection ⟨5⟩ "only_on_aptos" ⟨⟨3⟩, 0⟩
        (fun _ => .ok ⟨.other, true,
          [⟨createCollectionEventTag ⟨⟨5⟩, "only_on_aptos"⟩,
            List.replicate 31 0 ++ [1] ++ (List.replicate 31 0 ++ [2]) ++ [1]⟩]⟩)
        ⟨4, 100, 100⟩ "abc").1 =
        [(sign_with_transaction_builder ⟨⟨3⟩, 0⟩ ⟨4, 100, 100⟩
          (createCollectionPayload ⟨⟨5⟩, "only_on_aptos"⟩ "abc")).1, t2] ∧
      t2.raw.payload =
        setMintingStatusPayload ⟨⟨5⟩, "only_on_aptos"⟩
          (CreateCollectionConfigMoveStruct.collection_config ⟨⟨1⟩, ⟨2⟩, true⟩) ∧
      (setMintingStatusPayload ⟨⟨5⟩, "only_on_aptos"⟩
          (CreateCollectionConfigMoveStruct.collection_config ⟨⟨1⟩, ⟨2⟩, true⟩)).args =
        [bcsAddr (CreateCollectionConfigMoveStruct.collection_config ⟨⟨1⟩, ⟨2⟩, true⟩),
          bcsBool true] :=
  c1_activation_targets_event_config_address ⟨5⟩ "only_on_aptos" ⟨⟨3⟩, 0⟩
    (fun _ => .ok ⟨.other, true,
      [⟨createCollectionEventTag ⟨⟨5⟩, "only_on_aptos"⟩,
        List.replicate 31 0 ++ [1] ++ (List.replicate 31 0 ++ [2]) ++ [1]⟩]⟩)
    ⟨4, 100, 100⟩ "abc" ⟨⟨5⟩, "only_on_aptos"⟩
    ⟨.other, true,
      [⟨createCollectionEventTag ⟨⟨5⟩, "only_on_aptos"⟩,
        List.replicate 31 0 ++ [1] ++ (List.replicate 31 0 ++ [2]) ++ [1]⟩]⟩
    ⟨⟨1⟩, ⟨2⟩, true⟩ rfl rfl rfl rfl

/-- Counterexample to C1 as stated: the only decoded CreateCollectionConfig
event has collection_config = address 1 and collection = address 2, and the
second submitted transaction's first BCS argument is the encoding of
address 1 — the collection_config (collectionConfigAddress) field, not the
collection (collectionAddress) field. -/
theorem c1_counterexample :
    search_single_event_data decodeCreateCollectionConfig
        [⟨createCollectionEventTag ⟨⟨5⟩, "only_on_aptos"⟩,
          List.replicate 31 0 ++ [1] ++ (List.replicate 31 0 ++ [2]) ++ [1]⟩]
        (createCollectionEventTag ⟨⟨5⟩, "only_on_aptos"⟩) =
      .ok ⟨⟨1⟩, ⟨2⟩, true⟩ ∧
    ((create_test_collection ⟨5⟩ "only_on_aptos" ⟨⟨3⟩, 0⟩
        (fun _ => .ok ⟨.other, true,
          [⟨createCollectionEventTag ⟨⟨5⟩, "only_on_aptos"⟩,
            List.replicate 31 0 ++ [1] ++ (List.replicate 31 0 ++ [2]) ++ [1]⟩]⟩)
        ⟨4, 100, 100⟩ "abc").1[1]?).map (fun t => t.raw.payload.args[0]?) =
      some (some (bcsAddr ⟨1⟩)) ∧
    bcsAddr (⟨1⟩ : AccountAddress) ≠ bcsAddr ⟨2⟩ := by
  refine ⟨rfl, by decide, by decide⟩
